import Mathlib

/-!
Verification of the grade-computation core of a client-side gradebook portal
(weight resolver, assignment aggregator, weighted-ratio calculator, mark
mapper, style mapper, GPA value mapping). The JavaScript/TypeScript source is
shallowly embedded: machine numbers become exact rationals, with an explicit
`JsNum` wrapper tracking the NaN and infinity values that JavaScript division
can produce; nullable fields become `Option`; the reactive store becomes an
explicit map. District-specific behaviour (the `isMCPS()` global) is threaded
through as an explicit boolean parameter `mcps`.
-/

/-- A JavaScript number as it appears in this program: an exact rational,
one of the two infinities, or NaN. -/
inductive JsNum where
  | num (q : ℚ)
  | posInf
  | negInf
  | nan
deriving DecidableEq

namespace JsNum

/-- `isNaN(x)` from JavaScript. -/
def isNaN : JsNum → Bool
  | .nan => true
  | _ => false

/-- JavaScript `+` on numbers (as used by the fold in
`calculateWeightedPointRatio`): NaN absorbs, infinities of opposite sign
give NaN. -/
def add : JsNum → JsNum → JsNum
  | .num a, .num b => .num (a + b)
  | .num _, .posInf => .posInf
  | .posInf, .num _ => .posInf
  | .posInf, .posInf => .posInf
  | .num _, .negInf => .negInf
  | .negInf, .num _ => .negInf
  | .negInf, .negInf => .negInf
  | _, _ => .nan

/-- JavaScript multiplication of a number `x` by a finite rational `w`
(the category weight): `Infinity * 0` is NaN. -/
def mulQ (x : JsNum) (w : ℚ) : JsNum :=
  match x with
  | .num q => .num (q * w)
  | .posInf => if 0 < w then .posInf else if w < 0 then .negInf else .nan
  | .negInf => if 0 < w then .negInf else if w < 0 then .posInf else .nan
  | .nan => .nan

/-- JavaScript division of a number `x` by a finite rational `w`:
division by zero yields a signed infinity, `0/0` yields NaN. -/
def divQ (x : JsNum) (w : ℚ) : JsNum :=
  match x with
  | .num q =>
    if w = 0 then (if 0 < q then .posInf else if q < 0 then .negInf else .nan)
    else .num (q / w)
  | .posInf => if w < 0 then .negInf else .posInf
  | .negInf => if w < 0 then .posInf else .negInf
  | .nan => .nan

/-- JavaScript `>=` on numbers: any comparison with NaN is false,
`Infinity >= x` and `x >= -Infinity` hold for non-NaN `x`. -/
def ge : JsNum → JsNum → Bool
  | .nan, _ => false
  | _, .nan => false
  | .posInf, _ => true
  | .num _, .posInf => false
  | .negInf, .posInf => false
  | _, .negInf => true
  | .num a, .num b => b ≤ a
  | .negInf, .num _ => false

/-- JavaScript `<=` on numbers. -/
def le (x y : JsNum) : Bool := ge y x

end JsNum

/-- JavaScript division `a / b` of two finite numbers. -/
def jsDiv (a b : ℚ) : JsNum :=
  if b = 0 then (if 0 < a then .posInf else if a < 0 then .negInf else .nan)
  else .num (a / b)

/-- `Math.round(x * 10_000) / 10_000` from `calculateScoreStyle`
("synergy measures in hundredths of a percent"): round the ratio to four
decimal places, halves toward positive infinity; NaN and the infinities
pass through unchanged. -/
def round4 : JsNum → JsNum
  | .num q => .num ((⌊q * 10000 + 1/2⌋ : ℤ) / (10000 : ℚ))
  | x => x

/-- A grading category (`MeasureType` in the source): id, display name and
raw weight percentage. -/
structure MeasureType where
  id : Nat
  name : String
  weight : ℚ
deriving DecidableEq

/-- One (low-score-threshold, mark-label) boundary pair, an entry of a
report-card score-type's `details` list. -/
structure Boundary where
  lowScore : ℚ
  score : String
deriving DecidableEq

/-- A report-card score type: id, maximum score (`-1` is the "unscored"
sentinel) and the ordered boundary list `details`. -/
structure ReportCardScoreType where
  id : Nat
  max : ℚ
  details : List Boundary
deriving DecidableEq

/-- The grading policy: measure types, report-card score types and the
default score-type id. -/
structure GradingPolicy where
  measureTypes : List MeasureType
  reportCardScoreTypes : List ReportCardScoreType
  defaultReportCardScoreTypeId : Nat
deriving DecidableEq

/-- A `CustomAssignment`: score (nullable in the source, hence `Option`),
max score, category id, grading-inclusion flag and the local-fabrication
flag. Numeric-string fields (`score`, `maxScore`) are embedded as the
rationals their `parseFloat` yields. -/
structure CustomAssignment where
  score : Option ℚ
  maxScore : ℚ
  measureTypeId : Nat
  isForGrading : Bool
  isCustom : Bool
deriving DecidableEq

/-- The locally editable shadow copy of a course. -/
structure CustomCourse where
  assignments : List CustomAssignment
  needsRollback : Bool
deriving DecidableEq

/-- `computeWeight` (source lines 38-45): raw weight percentage over 100,
except that under the MCPS district two category names get fixed weights
0.9 and 0.1. -/
def computeWeight (mcps : Bool) (measureType : MeasureType) : ℚ :=
  if ¬ mcps then measureType.weight / 100
  else if measureType.name = "All Tasks / Assessments" then 9/10
  else if measureType.name = "Practice / Preparation" then 1/10
  else measureType.weight / 100

/-- Insertion of a boundary into a list kept in descending `lowScore`
order: `b` goes in front of the first element whose threshold is at most
`b`'s own. `sortDetails` only ever inserts an element into the sorted image
of the elements that originally followed it, so placing `b` in front of an
equal threshold keeps the original relative order of ties — matching the
stable (ES2019) JavaScript `sort((a, b) => b.lowScore - a.lowScore)`. -/
def insertBoundary (b : Boundary) : List Boundary → List Boundary
  | [] => [b]
  | c :: rest => if c.lowScore ≤ b.lowScore then b :: c :: rest else c :: insertBoundary b rest

/-- The boundary list sorted descending by `lowScore`, equal thresholds in
original order (`details.sort((a, b) => b.lowScore - a.lowScore)` in
`calculateMark`): each element is inserted in front of the sorted rest of
the list. -/
def sortDetails : List Boundary → List Boundary
  | [] => []
  | b :: rest => insertBoundary b (sortDetails rest)

/-- The loop of `calculateMark`'s generic branch (source lines 172-175):
walk the boundaries, return the label of the first one whose
`lowScore / max` is `<=` the ratio, else "N/A". -/
def markWalk (max : ℚ) (ratio : JsNum) : List Boundary → String
  | [] => "N/A"
  | b :: rest => if ratio.ge (jsDiv b.lowScore max) then b.score else markWalk max ratio rest

/-- `calculateMark` (source lines 160-176). The score-type lookup uses the
non-null assertion only after the `!policy` guard, so a missing id yields
"N/A"; NaN ratios and the unscored sentinel `max = -1` also yield "N/A".
The MCPS district branch uses the fixed five-tier threshold table. -/
def calculateMark (policy : GradingPolicy) (mcps : Bool) (scoreType : Nat) (ratio : JsNum) : String :=
  match policy.reportCardScoreTypes.find? (fun t => t.id == scoreType) with
  | none => "N/A"
  | some p =>
    if ratio.isNaN then "N/A"
    else if p.max = -1 then "N/A"
    else if mcps then
      if ratio.ge (.num (179/200)) then "A"
      else if ratio.ge (.num (159/200)) then "B"
      else if ratio.ge (.num (139/200)) then "C"
      else if ratio.ge (.num (119/200)) then "D"
      else "E"
    else markWalk p.max ratio (sortDetails p.details)

/-- The contents of the looked-up score-type's `details` list after a call
to `calculateMark`: `Array.prototype.sort` sorts in place, so whenever the
generic branch is reached (id found, ratio not NaN, `max` not the sentinel,
not the MCPS district) the policy's own boundary list is reordered
descending by `lowScore`. `none` models the lookup failing. -/
def calculateMarkDetailsAfter (policy : GradingPolicy) (mcps : Bool) (scoreType : Nat)
    (ratio : JsNum) : Option (List Boundary) :=
  match policy.reportCardScoreTypes.find? (fun t => t.id == scoreType) with
  | none => none
  | some p =>
    if ratio.isNaN then some p.details
    else if p.max = -1 then some p.details
    else if mcps then some p.details
    else some (sortDetails p.details)

/-- The loop of `calculateScoreStyle`'s generic branch (source lines
238-244): walk the boundaries in policy order, returning `scale-<n>` for a
counter starting at 5 and floored at 1, else "fg". -/
def styleWalk (max : ℚ) (ratio : JsNum) : List Boundary → Nat → String
  | [], _ => "fg"
  | b :: rest, scale =>
    if ratio.ge (jsDiv b.lowScore max) then "scale-" ++ toString scale
    else styleWalk max ratio rest (Nat.max 1 (scale - 1))

/-- `calculateScoreStyle` (source lines 220-245). The score-type lookup
result is dereferenced without a guard, so an absent id is a fatal
`TypeError` in the source, modelled as `none`. Otherwise: unscored sentinel
first, then the `ratio >= 1.0` / `ratio <= 0.0` extremes, then the MCPS
five-tier table (NaN giving "fg"), then the rounded generic boundary
walk. -/
def calculateScoreStyle (policy : GradingPolicy) (mcps : Bool) (scoreType : Nat)
    (ratio : JsNum) : Option String :=
  match policy.reportCardScoreTypes.find? (fun t => t.id == scoreType) with
  | none => none
  | some p =>
    some (
      if p.max = -1 then "fg"
      else if ratio.ge (.num 1) then "scale-6"
      else if ratio.le (.num 0) then "scale-0"
      else if mcps then
        if ratio.isNaN then "fg"
        else if ratio.ge (.num (179/200)) then "scale-5"
        else if ratio.ge (.num (159/200)) then "scale-4"
        else if ratio.ge (.num (139/200)) then "scale-3"
        else if ratio.ge (.num (119/200)) then "scale-2"
        else "scale-1"
      else styleWalk p.max (round4 ratio) p.details 5)

/-- Does `pat` occur starting at the head of `l`? (Character-list version of
a string prefix test, used to embed JavaScript `String.includes`.) -/
def listStarts : List Char → List Char → Bool
  | [], _ => true
  | _ :: _, [] => false
  | a :: as, b :: bs => a == b && listStarts as bs

/-- JavaScript `s.includes(pat)`: `pat` occurs as a contiguous substring of
`s`. -/
def strIncludes (s pat : String) : Bool :=
  (List.range (s.length + 1)).any fun i => listStarts pat.data (s.data.drop i)

/-- `isMcpsCourseWeighted` (source lines 190-192): a course counts as
GPA-weighted when its name contains one of the fixed keywords
(case-sensitive substring match). -/
def isMcpsCourseWeighted (name : String) : Bool :=
  ["AP", "Hon", "Honors", "Adv", "Advanced", "Mag", "Magnet", "IB"].any
    fun term => strIncludes name term

/-- `mcpsGpaValue` (source lines 178-188): letter marks map to GPA points
4, 3, 2, 1, 0; the weighted bonus point is added for A, B and C only, and
unrecognized marks give `null`. -/
def mcpsGpaValue (mark : String) (weighted : Bool) : Option ℚ :=
  let extra : ℚ := if weighted then 1 else 0
  if mark = "A" then some (4 + extra)
  else if mark = "B" then some (3 + extra)
  else if mark = "C" then some (2 + extra)
  else if mark = "D" then some 1
  else if mark = "E" then some 0
  else none

/-- The per-course contribution of the `calculateMcpsGpa` loop body (source
lines 206-211) for a course with the given resolved mark and name: `none`
when the mark is unrecognized (the course is skipped), otherwise the pair
(weighted points, unweighted points) added to the running totals, where the
unweighted value falls back to 0 via `?? 0`. -/
def gpaContribution (mark : String) (courseName : String) : Option (ℚ × ℚ) :=
  match mcpsGpaValue mark (isMcpsCourseWeighted courseName) with
  | none => none
  | some w => some (w, (mcpsGpaValue mark false).getD 0)

/-- The gradebook store as the computation functions see it: the loaded
policy and the modified-course map keyed by `"<gradingPeriod>:<courseId>"`.
The reactive wrapper adds nothing to the computations' semantics. -/
structure Gradebook where
  policy : GradingPolicy
  modifiedCourses : String → Option CustomCourse

/-- The composite key `` `${gradingPeriod}:${courseId}` ``. -/
def courseKey (gradingPeriod : String) (courseId : Nat) : String :=
  gradingPeriod ++ ":" ++ toString courseId

/-- The filter predicate of `totalAssignmentPointsBy` (source lines
112-116): the assignment counts toward grading, its score is non-null, and
it belongs to the requested category when one is given. -/
def assignmentIncluded (categoryId : Option Nat) (a : CustomAssignment) : Bool :=
  a.isForGrading && a.score.isSome &&
    (match categoryId with
     | some c => a.measureTypeId == c
     | none => true)

namespace Gradebook

/-- `totalAssignmentPointsBy` (source lines 103-118): sum a per-assignment
transform over the filtered assignments, defaulting to the course's shadow
copy when no explicit list is given. (An absent shadow entry is a fatal
non-null assertion in the source; it is modelled as the empty list, and no
theorem below depends on that path.) -/
def totalAssignmentPointsBy (gb : Gradebook) (transform : CustomAssignment → ℚ)
    (gradingPeriod : String) (courseId : Nat) (categoryId : Option Nat)
    (assignments : Option (List CustomAssignment)) : ℚ :=
  let resolved := match assignments with
    | some l => l
    | none =>
      match gb.modifiedCourses (courseKey gradingPeriod courseId) with
      | some c => c.assignments
      | none => []
  (resolved.filter (assignmentIncluded categoryId)).foldl
    (fun acc a => acc + transform a) 0

/-- `totalAssignmentPoints` (source lines 120-125): earned points, the
non-null score parsed as a number (`parseFloat(a.score!)`; the filter
guarantees the score is present, so the default is never used). -/
def totalAssignmentPoints (gb : Gradebook) (gradingPeriod : String) (courseId : Nat)
    (categoryId : Option Nat) (assignments : Option (List CustomAssignment)) : ℚ :=
  gb.totalAssignmentPointsBy (fun a => a.score.getD 0) gradingPeriod courseId categoryId assignments

/-- `maxAssignmentPoints` (source lines 127-132): possible points
(`parseFloat(a.maxScore)`). -/
def maxAssignmentPoints (gb : Gradebook) (gradingPeriod : String) (courseId : Nat)
    (categoryId : Option Nat) (assignments : Option (List CustomAssignment)) : ℚ :=
  gb.totalAssignmentPointsBy (fun a => a.maxScore) gradingPeriod courseId categoryId assignments

/-- Stages 1-4 of `calculateWeightedPointRatio` (source lines 140-154): map
every policy category to (id, weight, possible points, adjustment), drop
the categories whose possible total is zero (falsy `!!total`), form each
survivor's weighted ratio `(earned + extraPoints) / (total + extraTotal) *
weight`, and drop the pairs whose ratio is NaN. What remains are the
contributing categories as (weight, weighted ratio) pairs. The optional
adjustments record is embedded as a total function, absent entries being
`(0, 0)` (`adjustments?.[type.id] ?? [0, 0]`). -/
def contributingCategories (gb : Gradebook) (mcps : Bool) (gradingPeriod : String)
    (courseId : Nat) (adjustments : Nat → ℚ × ℚ)
    (assignments : Option (List CustomAssignment)) : List (ℚ × JsNum) :=
  ((gb.policy.measureTypes.map fun t =>
      (t.id, computeWeight mcps t,
       gb.maxAssignmentPoints gradingPeriod courseId (some t.id) assignments,
       adjustments t.id)).filter
    (fun x => x.2.2.1 != 0)).map
    (fun x =>
      (x.2.1,
       (jsDiv (gb.totalAssignmentPoints gradingPeriod courseId (some x.1) assignments
                 + x.2.2.2.1)
              (x.2.2.1 + x.2.2.2.2)).mulQ x.2.1))
    |>.filter (fun x => !x.2.isNaN)

/-- `calculateWeightedPointRatio` (source lines 134-158): fold the
contributing categories into (weight sum, weighted-ratio sum) starting from
`[0, 0]` and divide, normalizing against only the categories that actually
contributed. -/
def calculateWeightedPointRatio (gb : Gradebook) (mcps : Bool) (gradingPeriod : String)
    (courseId : Nat) (adjustments : Nat → ℚ × ℚ)
    (assignments : Option (List CustomAssignment)) : JsNum :=
  let sums := (gb.contributingCategories mcps gradingPeriod courseId adjustments
      assignments).foldl
    (fun acc x => (acc.1 + x.1, acc.2.add x.2)) ((0 : ℚ), JsNum.num 0)
  sums.2.divQ sums.1

end Gradebook

/-- Sum of a list of rationals (left fold from 0), for stating the
normalization property of `calculateWeightedPointRatio`. -/
def qSum (l : List ℚ) : ℚ := l.foldl (fun a b => a + b) 0

/-- Sum of a list of JavaScript numbers (left fold from 0). -/
def jsSum (l : List JsNum) : JsNum := l.foldl JsNum.add (JsNum.num 0)

/-- Specification-side restatement of `calculateMark`'s generic branch:
the label of the first boundary, in the list sorted descending by
`lowScore`, whose `lowScore / max` is `<=` the ratio, or "N/A" when none
matches. -/
def specFirstMatch (details : List Boundary) (max : ℚ) (ratio : JsNum) : String :=
  match (sortDetails details).find? (fun b => ratio.ge (jsDiv b.lowScore max)) with
  | some b => b.score
  | none => "N/A"

/-- A concrete generic policy with one score type (id 1, max 100) and the
boundary table [(90, "A"), (80, "B"), (70, "C")] used by the spec's
examples. -/
def p90 : GradingPolicy :=
  { measureTypes := [],
    reportCardScoreTypes := [⟨1, 100, [⟨90, "A"⟩, ⟨80, "B"⟩, ⟨70, "C"⟩]⟩],
    defaultReportCardScoreTypeId := 1 }

/-- A concrete policy whose score type 1 has two boundaries with the same
threshold 90, exercising the tie behaviour of the stable sort in
`calculateMark`. -/
def pTie : GradingPolicy :=
  { measureTypes := [],
    reportCardScoreTypes := [⟨1, 100, [⟨90, "A"⟩, ⟨90, "B"⟩]⟩],
    defaultReportCardScoreTypeId := 1 }

/-- A concrete policy whose score type 1 has its boundary table stored in a
non-sorted order, exposing the in-place sort of `calculateMark`. -/
def p3 : GradingPolicy :=
  { measureTypes := [],
    reportCardScoreTypes := [⟨1, 100, [⟨70, "C"⟩, ⟨90, "A"⟩, ⟨80, "B"⟩]⟩],
    defaultReportCardScoreTypeId := 1 }

/-- A concrete policy whose only score type is unscored (`max = -1`). -/
def pU : GradingPolicy :=
  { measureTypes := [],
    reportCardScoreTypes := [⟨1, -1, []⟩],
    defaultReportCardScoreTypeId := 1 }

/-- A concrete policy with no report-card score types at all, so every
lookup fails. -/
def pFind : GradingPolicy := ⟨[], [], 0⟩

/-- A concrete gradebook with two equally weighted categories (raw weight
percentage 50 each) and nothing in the store. -/
def gbC1 : Gradebook :=
  { policy := { measureTypes := [⟨1, "Category 1", 50⟩, ⟨2, "Category 2", 50⟩],
                reportCardScoreTypes := [], defaultReportCardScoreTypeId := 0 },
    modifiedCourses := fun _ => none }

/-- A single graded assignment worth 8 out of 10 points in category 1. -/
def asgC1 : List CustomAssignment := [⟨some 8, 10, 1, true, false⟩]

/-- The generic mark walk is the first match (as `find?`) over its list. -/
theorem markWalk_eq_find (max : ℚ) (ratio : JsNum) (l : List Boundary) :
    markWalk max ratio l =
      (match l.find? (fun b => ratio.ge (jsDiv b.lowScore max)) with
       | some b => b.score
       | none => "N/A") := by
  induction l with
  | nil => rfl
  | cons b rest ih =>
    by_cases h : ratio.ge (jsDiv b.lowScore max)
    · simp [markWalk, List.find?, h]
    · simp only [Bool.not_eq_true] at h
      simp [markWalk, List.find?, h, ih]

/-- The paired fold of `calculateWeightedPointRatio` splits into the two
componentwise sums. -/
theorem foldl_pair_split (l : List (ℚ × JsNum)) (a : ℚ) (b : JsNum) :
    l.foldl (fun acc x => (acc.1 + x.1, acc.2.add x.2)) (a, b) =
      ((l.map Prod.fst).foldl (fun u v => u + v) a, (l.map Prod.snd).foldl JsNum.add b) := by
  induction l generalizing a b with
  | nil => rfl
  | cons x rest ih => simp [List.foldl, ih]

/-- The style walk with a counter in `[1, 5]` only produces `scale-1`
through `scale-5` or `fg`; in particular never `scale-6` or `scale-0`. -/
theorem styleWalk_ne_extremes (max : ℚ) (ratio : JsNum) (l : List Boundary) :
    ∀ scale : Nat, 1 ≤ scale → scale ≤ 5 →
      styleWalk max ratio l scale ≠ "scale-6" ∧ styleWalk max ratio l scale ≠ "scale-0" := by
  induction l with
  | nil =>
    intro scale _ _
    constructor <;> simp [styleWalk]
  | cons b rest ih =>
    intro scale h1 h5
    by_cases h : ratio.ge (jsDiv b.lowScore max)
    · simp only [styleWalk, h, if_true]
      interval_cases scale <;> constructor <;> decide
    · simp only [Bool.not_eq_true] at h
      simp only [styleWalk, h, Bool.false_eq_true, if_false]
      exact ih (Nat.max 1 (scale - 1)) (Nat.le_max_left 1 _)
        (Nat.max_le.mpr ⟨by norm_num, Nat.le_trans (Nat.sub_le _ _) h5⟩)

/-- Claim C1: for every grading period, course and policy,
`calculateWeightedPointRatio` excludes every category whose filtered total
possible points is zero (inserting such a category never changes the
result); the final ratio is the sum of the weighted per-category ratios
divided by the sum of the weights of only the contributing categories; and
with category 1 of weight 0.5 and earned/possible 8/10 and category 2 of
weight 0.5 with possible = 0, the result is 0.8, not 0.4. -/
theorem calculateWeightedPointRatio_spec :
    (∀ (store : String → Option CustomCourse) (rcst : List ReportCardScoreType) (dflt : Nat)
       (l1 l2 : List MeasureType) (c : MeasureType) (mcps : Bool) (gradingPeriod : String)
       (courseId : Nat) (adjustments : Nat → ℚ × ℚ)
       (assignments : Option (List CustomAssignment)),
       (Gradebook.mk ⟨l1 ++ c :: l2, rcst, dflt⟩ store).maxAssignmentPoints gradingPeriod
           courseId (some c.id) assignments = 0 →
       (Gradebook.mk ⟨l1 ++ c :: l2, rcst, dflt⟩ store).calculateWeightedPointRatio mcps
           gradingPeriod courseId adjustments assignments =
         (Gradebook.mk ⟨l1 ++ l2, rcst, dflt⟩ store).calculateWeightedPointRatio mcps
           gradingPeriod courseId adjustments assignments)
    ∧ (∀ (gb : Gradebook) (mcps : Bool) (gradingPeriod : String) (courseId : Nat)
         (adjustments : Nat → ℚ × ℚ) (assignments : Option (List CustomAssignment)),
         gb.calculateWeightedPointRatio mcps gradingPeriod courseId adjustments assignments =
           (jsSum ((gb.contributingCategories mcps gradingPeriod courseId adjustments
               assignments).map Prod.snd)).divQ
             (qSum ((gb.contributingCategories mcps gradingPeriod courseId adjustments
               assignments).map Prod.fst)))
    ∧ gbC1.calculateWeightedPointRatio false "P1" 7 (fun _ => (0, 0)) (some asgC1) =
        JsNum.num (4/5) := by
  refine ⟨?_, ?_, ?_⟩
  · intro store rcst dflt l1 l2 c mcps gradingPeriod courseId adjustments assignments h
    simp only [Gradebook.calculateWeightedPointRatio, Gradebook.contributingCategories,
      List.map_append, List.map_cons, List.filter_append, List.filter_cons]
    simp only [Gradebook.maxAssignmentPoints, Gradebook.totalAssignmentPoints,
      Gradebook.totalAssignmentPointsBy] at h ⊢
    simp [h]
  · intro gb mcps gradingPeriod courseId adjustments assignments
    simp [Gradebook.calculateWeightedPointRatio, foldl_pair_split, qSum, jsSum]
  · norm_num [Gradebook.calculateWeightedPointRatio, Gradebook.contributingCategories, gbC1,
      asgC1, Gradebook.maxAssignmentPoints, Gradebook.totalAssignmentPoints,
      Gradebook.totalAssignmentPointsBy, assignmentIncluded, computeWeight, jsDiv, JsNum.mulQ,
      JsNum.divQ, JsNum.isNaN, JsNum.add, List.filter, List.foldl]

/-- Witness for C1: inserting the possible-points-zero category 2 after
category 1 leaves the weighted ratio unchanged. -/
theorem calculateWeightedPointRatio_spec_witness :
    (Gradebook.mk ⟨[⟨1, "Category 1", 50⟩] ++ ⟨2, "Category 2", 50⟩ :: [], [], 0⟩
        (fun _ => none)).calculateWeightedPointRatio false "P1" 7 (fun _ => (0, 0))
        (some asgC1) =
      (Gradebook.mk ⟨[⟨1, "Category 1", 50⟩] ++ [], [], 0⟩
        (fun _ => none)).calculateWeightedPointRatio false "P1" 7 (fun _ => (0, 0))
        (some asgC1) :=
  calculateWeightedPointRatio_spec.1 (fun _ => none) [] 0 [⟨1, "Category 1", 50⟩] []
    ⟨2, "Category 2", 50⟩ false "P1" 7 (fun _ => (0, 0)) (some asgC1) rfl

/-- Claim C2, counterexample: the claim says every mark gets the +1 bonus
when weighted, so a weighted "D" would be worth 2; the code gives a
weighted "D" only 1 point. -/
theorem mcpsGpaValue_weighted_D_cex : mcpsGpaValue "D" true ≠ some 2 := by
  simp only [mcpsGpaValue, String.reduceEq, reduceIte]
  norm_num

/-- Claim C2, amended: marks A, B, C are worth 4, 3, 2 points plus 1 when
the course is classified as weighted (uncapped, so a weighted "A" is 5),
while D and E are worth 1 and 0 with no weighted bonus; a course named
"AP Calculus" with mark "B" contributes weighted 4 and unweighted 3, and a
course named "Biology" with mark "B" contributes weighted 3 and
unweighted 3. -/
theorem mcpsGpaValue_spec (weighted : Bool) :
    mcpsGpaValue "A" weighted = some (4 + (if weighted then (1:ℚ) else 0))
    ∧ mcpsGpaValue "B" weighted = some (3 + (if weighted then (1:ℚ) else 0))
    ∧ mcpsGpaValue "C" weighted = some (2 + (if weighted then (1:ℚ) else 0))
    ∧ mcpsGpaValue "D" weighted = some 1
    ∧ mcpsGpaValue "E" weighted = some 0
    ∧ gpaContribution "B" "AP Calculus" = some (4, 3)
    ∧ gpaContribution "B" "Biology" = some (3, 3) := by
  have hap : isMcpsCourseWeighted "AP Calculus" = true := by decide
  have hbio : isMcpsCourseWeighted "Biology" = false := by decide
  refine ⟨?_, ?_, ?_, ?_, ?_, ?_, ?_⟩
  all_goals
    simp only [gpaContribution, mcpsGpaValue, hap, hbio, String.reduceEq, reduceIte]
  all_goals norm_num

/-- Claim C3: `Array.prototype.sort` mutates in place, so a `calculateMark`
call that reaches the generic branch permanently reorders the policy's own
`details` list — the policy is not left unchanged. Evaluated at a policy
stored in non-sorted order: after the call the list is sorted descending
and no longer equals the original. -/
theorem calculateMark_mutates_details :
    calculateMarkDetailsAfter p3 false 1 (.num (1/2)) = some [⟨90, "A"⟩, ⟨80, "B"⟩, ⟨70, "C"⟩]
    ∧ calculateMarkDetailsAfter p3 false 1 (.num (1/2)) ≠
        some [⟨70, "C"⟩, ⟨90, "A"⟩, ⟨80, "B"⟩] := by
  have h : calculateMarkDetailsAfter p3 false 1 (.num (1/2)) =
      some [⟨90, "A"⟩, ⟨80, "B"⟩, ⟨70, "C"⟩] := by
    norm_num [calculateMarkDetailsAfter, p3, sortDetails, insertBoundary, JsNum.isNaN, List.find?]
  refine ⟨h, ?_⟩
  rw [h]
  norm_num

/-- Claim C4: in the generic branch, for a found score type with `max` not
the unscored sentinel and a non-NaN ratio, `calculateMark` returns the
label of the first boundary, in the list sorted descending by `lowScore`,
whose `lowScore / max` is at most the ratio, and "N/A" when none matches;
with boundaries [(90, "A"), (80, "B"), (70, "C")] and max 100, ratio 0.85
yields "B", 0.95 yields "A" and 0.5 yields "N/A"; the sort is stable, so
with the tied boundaries [(90, "A"), (90, "B")] ratio 0.95 yields "A". -/
theorem calculateMark_generic_spec (policy : GradingPolicy) (scoreType : Nat) (ratio : JsNum)
    (p : ReportCardScoreType)
    (hp : policy.reportCardScoreTypes.find? (fun t => t.id == scoreType) = some p)
    (hn : ratio.isNaN = false) (hm : p.max ≠ -1) :
    calculateMark policy false scoreType ratio = specFirstMatch p.details p.max ratio
    ∧ calculateMark p90 false 1 (.num (17/20)) = "B"
    ∧ calculateMark p90 false 1 (.num (19/20)) = "A"
    ∧ calculateMark p90 false 1 (.num (1/2)) = "N/A"
    ∧ calculateMark pTie false 1 (.num (19/20)) = "A" := by
  refine ⟨?_, ?_, ?_, ?_, ?_⟩
  · unfold calculateMark
    rw [hp]
    simp only [hn, hm, Bool.false_eq_true, if_false]
    exact markWalk_eq_find p.max ratio (sortDetails p.details)
  all_goals
    norm_num [calculateMark, p90, pTie, markWalk, sortDetails, insertBoundary, jsDiv, JsNum.ge,
      JsNum.isNaN, List.find?]

/-- Witness for C4 at the example policy and ratio 0.85. -/
theorem calculateMark_generic_spec_witness :
    (calculateMark p90 false 1 (.num (17/20)) =
      specFirstMatch (⟨1, 100, [⟨90, "A"⟩, ⟨80, "B"⟩, ⟨70, "C"⟩]⟩ : ReportCardScoreType).details
        (⟨1, 100, [⟨90, "A"⟩, ⟨80, "B"⟩, ⟨70, "C"⟩]⟩ : ReportCardScoreType).max
        (.num (17/20)))
    ∧ calculateMark p90 false 1 (.num (17/20)) = "B"
    ∧ calculateMark p90 false 1 (.num (19/20)) = "A"
    ∧ calculateMark p90 false 1 (.num (1/2)) = "N/A"
    ∧ calculateMark pTie false 1 (.num (19/20)) = "A" :=
  calculateMark_generic_spec p90 1 (.num (17/20)) ⟨1, 100, [⟨90, "A"⟩, ⟨80, "B"⟩, ⟨70, "C"⟩]⟩
    rfl rfl (by norm_num)

/-- Claim C5: `calculateScoreStyle` dereferences the score-type lookup
without a guard, so an id absent from `policy.reportCardScoreTypes` is a
fatal programming-contract violation (modelled as `none`); when the id is
present the lookup and dereference cannot fail and some style is always
returned. -/
theorem calculateScoreStyle_lookup_spec (policy : GradingPolicy) (mcps : Bool) (scoreType : Nat)
    (ratio : JsNum) :
    (policy.reportCardScoreTypes.find? (fun t => t.id == scoreType) = none →
       calculateScoreStyle policy mcps scoreType ratio = none)
    ∧ (∀ p, policy.reportCardScoreTypes.find? (fun t => t.id == scoreType) = some p →
        ∃ s, calculateScoreStyle policy mcps scoreType ratio = some s) := by
  constructor
  · intro h
    simp [calculateScoreStyle, h]
  · intro p hp
    unfold calculateScoreStyle
    rw [hp]
    exact ⟨_, rfl⟩

/-- Witness for C5: the lookup fails on an empty score-type table and
succeeds on the example policy. -/
theorem calculateScoreStyle_lookup_spec_witness :
    calculateScoreStyle pFind false 0 (.num 0) = none
    ∧ ∃ s, calculateScoreStyle p90 false 1 (.num 0) = some s :=
  ⟨(calculateScoreStyle_lookup_spec pFind false 0 (.num 0)).1 rfl,
   (calculateScoreStyle_lookup_spec p90 false 1 (.num 0)).2
     ⟨1, 100, [⟨90, "A"⟩, ⟨80, "B"⟩, ⟨70, "C"⟩]⟩ rfl⟩

/-- Claim C6: `calculateMark` returns "N/A" whenever the score-type id is
not found, or the ratio is NaN, or the found score-type's `max` is the
unscored sentinel -1. -/
theorem calculateMark_na_spec (policy : GradingPolicy) (mcps : Bool) (scoreType : Nat)
    (ratio : JsNum) :
    (policy.reportCardScoreTypes.find? (fun t => t.id == scoreType) = none →
       calculateMark policy mcps scoreType ratio = "N/A")
    ∧ (ratio.isNaN = true → calculateMark policy mcps scoreType ratio = "N/A")
    ∧ (∀ p, policy.reportCardScoreTypes.find? (fun t => t.id == scoreType) = some p →
        p.max = -1 → calculateMark policy mcps scoreType ratio = "N/A") := by
  refine ⟨fun h => ?_, fun h => ?_, fun p hp hm => ?_⟩
  · simp [calculateMark, h]
  · unfold calculateMark
    cases hf : policy.reportCardScoreTypes.find? (fun t => t.id == scoreType) with
    | none => rfl
    | some p => simp [h]
  · unfold calculateMark
    rw [hp]
    simp [hm]

/-- Witness for C6: "N/A" on a missing id, on a NaN ratio, and on an
unscored score type. -/
theorem calculateMark_na_spec_witness :
    calculateMark pFind false 0 (.num 0) = "N/A"
    ∧ calculateMark p90 false 1 .nan = "N/A"
    ∧ calculateMark pU false 1 (.num 1) = "N/A" :=
  ⟨(calculateMark_na_spec pFind false 0 (.num 0)).1 rfl,
   (calculateMark_na_spec p90 false 1 .nan).2.1 rfl,
   (calculateMark_na_spec pU false 1 (.num 1)).2.2 ⟨1, -1, []⟩ rfl rfl⟩

/-- Claim C7, counterexample: the claim says `computeWeight` never returns
a negative value, but a measure type with raw weight percentage -50 yields
-0.5. -/
theorem computeWeight_negative_cex : ¬ (0 ≤ computeWeight false ⟨1, "X", -50⟩) := by
  norm_num [computeWeight]

/-- Claim C7, amended: under the district override the category "All Tasks
/ Assessments" yields exactly 0.9 and "Practice / Preparation" exactly 0.1;
every other category, and every category outside the district, yields the
raw weight percentage divided by 100; and the result lies in [0, 1] (in
particular is non-negative) whenever the raw weight percentage lies in
[0, 100]. -/
theorem computeWeight_spec (mcps : Bool) (t : MeasureType) :
    (mcps = true → t.name = "All Tasks / Assessments" → computeWeight mcps t = 9/10)
    ∧ (mcps = true → t.name = "Practice / Preparation" → computeWeight mcps t = 1/10)
    ∧ (mcps = false → computeWeight mcps t = t.weight / 100)
    ∧ (mcps = true → t.name ≠ "All Tasks / Assessments" → t.name ≠ "Practice / Preparation" →
        computeWeight mcps t = t.weight / 100)
    ∧ (0 ≤ t.weight → t.weight ≤ 100 → 0 ≤ computeWeight mcps t ∧ computeWeight mcps t ≤ 1) := by
  refine ⟨fun hm hn => ?_, fun hm hn => ?_, fun hm => ?_, fun hm h1 h2 => ?_, fun h0 h100 => ?_⟩
  · have : t.name ≠ "Practice / Preparation" := by
      rw [hn]; decide
    simp [computeWeight, hm, hn]
  · by_cases ha : t.name = "All Tasks / Assessments"
    · rw [hn] at ha; exact absurd ha (by decide)
    · simp [computeWeight, hm, ha, hn]
  · simp [computeWeight, hm]
  · simp [computeWeight, hm, h1, h2]
  · have hA : (0:ℚ) ≤ t.weight / 100 := div_nonneg h0 (by norm_num)
    have hB : t.weight / 100 ≤ 1 := by
      rw [div_le_one (by norm_num)]
      linarith
    unfold computeWeight
    split_ifs <;> exact ⟨by first | exact hA | norm_num, by first | exact hB | norm_num⟩

/-- Witness for C7: the override category yields 0.9, and a 50% category
outside the district yields a value in [0, 1]. -/
theorem computeWeight_spec_witness :
    computeWeight true ⟨1, "All Tasks / Assessments", 50⟩ = 9/10
    ∧ (0 ≤ computeWeight false ⟨1, "Homework", 50⟩
        ∧ computeWeight false ⟨1, "Homework", 50⟩ ≤ 1) :=
  ⟨(computeWeight_spec true ⟨1, "All Tasks / Assessments", 50⟩).1 rfl rfl,
   (computeWeight_spec false ⟨1, "Homework", 50⟩).2.2.2.2 (by norm_num) (by norm_num)⟩

/-- Claim C8: an assignment whose score is null is excluded from both the
earned-points sum and the possible-points sum — inserting it into the
assignment list changes neither `totalAssignmentPoints` nor
`maxAssignmentPoints`, for any category filter. -/
theorem nullScore_excluded_spec (gb : Gradebook) (gradingPeriod : String) (courseId : Nat)
    (categoryId : Option Nat) (l1 l2 : List CustomAssignment) (a : CustomAssignment)
    (h : a.score = none) :
    gb.totalAssignmentPoints gradingPeriod courseId categoryId (some (l1 ++ a :: l2)) =
      gb.totalAssignmentPoints gradingPeriod courseId categoryId (some (l1 ++ l2))
    ∧ gb.maxAssignmentPoints gradingPeriod courseId categoryId (some (l1 ++ a :: l2)) =
      gb.maxAssignmentPoints gradingPeriod courseId categoryId (some (l1 ++ l2)) := by
  have hinc : assignmentIncluded categoryId a = false := by
    simp [assignmentIncluded, h]
  constructor <;>
    simp [Gradebook.totalAssignmentPoints, Gradebook.maxAssignmentPoints,
      Gradebook.totalAssignmentPointsBy, List.filter_append, List.filter_cons, hinc]

/-- Witness for C8: appending a null-score assignment worth 100 possible
points changes neither sum. -/
theorem nullScore_excluded_spec_witness :
    gbC1.totalAssignmentPoints "P1" 7 none (some (asgC1 ++ ⟨none, 100, 1, true, false⟩ :: [])) =
      gbC1.totalAssignmentPoints "P1" 7 none (some (asgC1 ++ []))
    ∧ gbC1.maxAssignmentPoints "P1" 7 none (some (asgC1 ++ ⟨none, 100, 1, true, false⟩ :: [])) =
      gbC1.maxAssignmentPoints "P1" 7 none (some (asgC1 ++ [])) :=
  nullScore_excluded_spec gbC1 "P1" 7 none asgC1 [] ⟨none, 100, 1, true, false⟩ rfl

/-- Claim C9, counterexample: the claim says ratio exactly 1.0 always gives
"scale-6" for every score-type id, but the `max = -1` guard runs first, so
an unscored score type returns "fg" even at ratio 1.0. -/
theorem scoreStyle_unscored_at_one_cex :
    calculateScoreStyle pU false 1 (.num 1) ≠ some "scale-6" := by
  norm_num [calculateScoreStyle, pU, List.find?]
  decide

/-- Claim C9, amended: for every score-type id that resolves to a score
type whose `max` is not the unscored sentinel, `calculateScoreStyle` at
ratio exactly 1.0 returns the top tier "scale-6" regardless of the policy
boundaries, and at ratio exactly 0.0 returns the bottom tier "scale-0". -/
theorem calculateScoreStyle_extremes_spec (policy : GradingPolicy) (mcps : Bool) (scoreType : Nat)
    (p : ReportCardScoreType)
    (hp : policy.reportCardScoreTypes.find? (fun t => t.id == scoreType) = some p)
    (hm : p.max ≠ -1) :
    calculateScoreStyle policy mcps scoreType (.num 1) = some "scale-6"
    ∧ calculateScoreStyle policy mcps scoreType (.num 0) = some "scale-0" := by
  unfold calculateScoreStyle
  rw [hp]
  constructor
  · simp [hm, JsNum.ge]
  · simp [hm, JsNum.ge, JsNum.le]

/-- Witness for C9 at the example policy. -/
theorem calculateScoreStyle_extremes_spec_witness :
    calculateScoreStyle p90 false 1 (.num 1) = some "scale-6"
    ∧ calculateScoreStyle p90 false 1 (.num 0) = some "scale-0" :=
  calculateScoreStyle_extremes_spec p90 false 1 ⟨1, 100, [⟨90, "A"⟩, ⟨80, "B"⟩, ⟨70, "C"⟩]⟩
    rfl (by norm_num)

/-- Claim C10: for every score type whose `max` is not the unscored
sentinel and every ratio strictly between 0.0 and 1.0,
`calculateScoreStyle` never returns "scale-6" or "scale-0": the district
branch and the generic boundary walk (tier counter starting at 5, floored
at 1) produce only "scale-5" through "scale-1" or "fg". -/
theorem calculateScoreStyle_interior_spec (policy : GradingPolicy) (mcps : Bool) (scoreType : Nat)
    (p : ReportCardScoreType) (r : ℚ)
    (hp : policy.reportCardScoreTypes.find? (fun t => t.id == scoreType) = some p)
    (hm : p.max ≠ -1) (h0 : 0 < r) (h1 : r < 1) :
    calculateScoreStyle policy mcps scoreType (.num r) ≠ some "scale-6"
    ∧ calculateScoreStyle policy mcps scoreType (.num r) ≠ some "scale-0" := by
  unfold calculateScoreStyle
  rw [hp]
  have hge : JsNum.ge (.num r) (.num 1) = false := by
    simp [JsNum.ge]
    linarith
  have hle : JsNum.le (.num r) (.num 0) = false := by
    simp [JsNum.le, JsNum.ge]
    linarith
  have hnan : JsNum.isNaN (.num r) = false := rfl
  cases mcps with
  | true =>
    simp only [hm, hge, hle, hnan, if_false, Bool.false_eq_true, if_true, Option.some.injEq]
    split_ifs <;> constructor <;> simp
  | false =>
    simp only [hm, hge, hle, hnan, if_false, Bool.false_eq_true, Option.some.injEq]
    have := styleWalk_ne_extremes p.max (round4 (.num r)) p.details 5 (by norm_num) (by norm_num)
    constructor <;> simp [this.1, this.2]

/-- Witness for C10 at the example policy and ratio 0.5. -/
theorem calculateScoreStyle_interior_spec_witness :
    calculateScoreStyle p90 false 1 (.num (1/2)) ≠ some "scale-6"
    ∧ calculateScoreStyle p90 false 1 (.num (1/2)) ≠ some "scale-0" :=
  calculateScoreStyle_interior_spec p90 false 1 ⟨1, 100, [⟨90, "A"⟩, ⟨80, "B"⟩, ⟨70, "C"⟩]⟩
    (1/2) rfl (by norm_num) (by norm_num) (by norm_num)
